import Mathlib

/-!
Verification of the analysis-cache and provider-dispatch layer of CodeArgus.

The development shallowly embeds the Python sources:
  * `src/ai_analyzer.py`   — provider adapters, cache-key derivation, `AIAnalyzer.analyze`
  * `src/comparison_engine.py` — diff filename parsing, test-coverage criterion resolution
  * `src/config_loader.py` — the configuration schema (`AIConfig` TypedDict)

Machine-level details that do not affect the verified properties are modelled
as follows and noted at each definition:
  * the SHA-256 digest of `_generate_cache_key` is modelled by its preimage
    byte stream (represented as a `String`; UTF-8 encoding is injective and
    `hashlib`'s sequential `update` calls concatenate the stream), so
    preimage equality entails digest equality — every key-equality theorem
    below therefore transfers soundly to the real hex digests;
  * the on-disk cache directory is an explicit association list from keys to
    entries, an entry being either a deserializable JSON result or a
    corrupted/unreadable file;
  * the remote LLM endpoints are opaque `Except`-valued call parameters
    (`Except` models a Python call that may raise).
-/

/-- A provider result dictionary, as built by `GeminiProvider.analyze_code`
and `OpenAICompatibleProvider.analyze_code` in `src/ai_analyzer.py`:
either `{"provider": p, "model": m, "response_text": t}` (a Success, no
`"error"` key) or `{"provider": p, "error": e}` (a Failure). -/
inductive AnalysisResult where
  | success (provider : String) (model : String) (response_text : String)
  | failure (provider : String) (error : String)
deriving Repr, DecidableEq

/-- Mirrors the Python test `"error" in result`. -/
def AnalysisResult.hasError : AnalysisResult → Bool
  | AnalysisResult.success _ _ _ => false
  | AnalysisResult.failure _ _ => true

/-- One cache file: either a stored result that deserializes, or a file whose
read raises `json.JSONDecodeError`/`IOError` (corrupted/unreadable). -/
inductive CacheEntry where
  | valid (r : AnalysisResult)
  | corrupt
deriving Repr, DecidableEq

/-- The cache directory: association list from cache keys to entries. -/
abbrev Store := List (String × CacheEntry)

/-- Mirrors `cache_file.exists()` followed by reading `cache_dir / key`. -/
def storeFind : Store → String → Option CacheEntry
  | [], _ => none
  | (k, e) :: rest, key => if k = key then some e else storeFind rest key

/-- The `openai` section of the configuration (`config_loader.OpenAIConfig`). -/
structure OpenAIConfig where
  model : String
  api_key : String
  base_url : Option String
deriving Repr, DecidableEq

/-- The `gemini` section of the configuration (`config_loader.GeminiConfig`). -/
structure GeminiConfig where
  model : String
  api_key : String
deriving Repr, DecidableEq

/-- The `ai` section of the configuration (`config_loader.AIConfig`).
Fields are `Option`s because `_generate_cache_key` reads them with
`dict.get(..., default)`.  The fields `temperature`, `max_tokens` and
`focus_areas` of the TypedDict are never read by the embedded code paths
(`focus_areas` is passed separately, as `ComparisonEngine` does) and are
omitted. -/
structure AIConfig where
  provider : Option String
  openai : Option OpenAIConfig
  gemini : Option GeminiConfig
  strictness_level : Option String
deriving Repr, DecidableEq

/-- Mirrors `ai_config.get(provider_name, {}).get('model', '')` in
`_generate_cache_key` (`src/ai_analyzer.py` lines 216-217).  The `ai`
configuration dictionary has exactly the keys of `config_loader.AIConfig`,
whose only provider sections are `"openai"` and `"gemini"`; for any other
`provider_name` — in particular `"local_llm"`, which `get_ai_provider`
serves from the `"openai"` section — the lookup yields `{}` and the model
name hashed is `''`.  (`_generate_cache_key` is only reachable when
`get_ai_provider` accepted the provider, i.e. when the lowercased name is
`"gemini"`, `"openai"` or `"local_llm"`; on those names the dictionary
lookup is exactly this case split.) -/
def AIConfig.modelName (cfg : AIConfig) : String :=
  let provider_name := cfg.provider.getD ""
  if provider_name = "openai" then (cfg.openai.map OpenAIConfig.model).getD ""
  else if provider_name = "gemini" then (cfg.gemini.map GeminiConfig.model).getD ""
  else ""

/-- Python code-point comparison of strings (`sorted` uses `<` on `str`,
which compares Unicode code points lexicographically). -/
def lexLe : List Char → List Char → Bool
  | [], _ => true
  | _ :: _, [] => false
  | a :: as, b :: bs =>
    if a.toNat < b.toNat then true
    else if b.toNat < a.toNat then false
    else lexLe as bs

/-- Boolean string comparison underlying `sorted(criteria)`. -/
def strLe (a b : String) : Bool := lexLe a.toList b.toList

/-- Mirrors Python `sorted` on a list of strings (insertion sort computes
the same sorted permutation; equal strings are identical, so stability is
unobservable). -/
def sortStrings (l : List String) : List String :=
  List.insertionSort (fun a b => strLe a b = true) l

/-- Hex digit as produced by `json.dumps` `\uXXXX` escapes. -/
def hexDigitChar (n : Nat) : Char :=
  if n < 10 then Char.ofNat (48 + n) else Char.ofNat (87 + n)

/-- Four-digit lowercase hex, as in `json.dumps` `\uXXXX` escapes. -/
def hex4 (n : Nat) : String :=
  String.mk [hexDigitChar (n / 4096 % 16), hexDigitChar (n / 256 % 16),
    hexDigitChar (n / 16 % 16), hexDigitChar (n % 16)]

/-- `json.dumps` escaping of one character (default `ensure_ascii=True`;
code points above `0xFFFF` would use surrogate pairs, which no theorem
below depends on). -/
def jsonEscapeChar (c : Char) : String :=
  if c = '"' then "\\\""
  else if c = '\\' then "\\\\"
  else if c = '\n' then "\\n"
  else if c = '\t' then "\\t"
  else if c = '\r' then "\\r"
  else if c.toNat < 32 ∨ c.toNat > 126 then "\\u" ++ hex4 c.toNat
  else String.singleton c

/-- `json.dumps` of a list of strings with the default separator `", "`,
as used on `sorted(criteria)` in `_generate_cache_key`. -/
def jsonDumps (strs : List String) : String :=
  "[" ++ String.intercalate ", "
    (strs.map (fun s => "\"" ++ String.join (s.toList.map jsonEscapeChar) ++ "\"")) ++ "]"

/-- `AIAnalyzer._generate_cache_key` (`src/ai_analyzer.py` lines 207-222),
modelled by the byte stream fed to the SHA-256 hasher: the sequential
`hasher.update` calls concatenate
`(diff or '') + (context or '') + json.dumps(sorted(criteria)) +
provider + model_name + strictness_level`.  Equal streams yield equal hex
digests, so every equality proved of this function holds of the real key.
(`diff or ""` equals `diff` for every string, `""` included.) -/
def generate_cache_key (cfg : AIConfig) (diff : String) (context : Option String)
    (criteria : List String) : String :=
  diff ++ context.getD "" ++ jsonDumps (sortStrings criteria)
    ++ cfg.provider.getD "" ++ cfg.modelName ++ cfg.strictness_level.getD ""

/-! ### Ordering lemmas for `sortStrings` -/

theorem lexLe_total : ∀ as bs : List Char, lexLe as bs = true ∨ lexLe bs as = true
  | [], _ => Or.inl rfl
  | _ :: _, [] => Or.inr rfl
  | a :: as, b :: bs => by
    rcases Nat.lt_trichotomy a.toNat b.toNat with h | h | h
    · left
      simp [lexLe, h]
    · have hab : ¬ a.toNat < b.toNat := by omega
      have hba : ¬ b.toNat < a.toNat := by omega
      simpa [lexLe, hab, hba] using lexLe_total as bs
    · right
      simp [lexLe, h]

theorem lexLe_trans : ∀ as bs cs : List Char,
    lexLe as bs = true → lexLe bs cs = true → lexLe as cs = true
  | [], _, _ => fun _ _ => rfl
  | _ :: _, [], _ => fun h _ => by simp [lexLe] at h
  | _ :: _, _ :: _, [] => fun _ h => by simp [lexLe] at h
  | a :: as, b :: bs, c :: cs => fun h₁ h₂ => by
    simp only [lexLe] at h₁ h₂ ⊢
    by_cases hab : a.toNat < b.toNat <;> by_cases hbc : b.toNat < c.toNat
    · simp [show a.toNat < c.toNat by omega]
    · by_cases hcb : c.toNat < b.toNat
      · simp [hbc, hcb] at h₂
      · have hbceq : b.toNat = c.toNat := by omega
        simp [show a.toNat < c.toNat by omega]
    · by_cases hba : b.toNat < a.toNat
      · simp [hab, hba] at h₁
      · have habeq : a.toNat = b.toNat := by omega
        simp [show a.toNat < c.toNat by omega]
    · by_cases hba : b.toNat < a.toNat
      · simp [hab, hba] at h₁
      · by_cases hcb : c.toNat < b.toNat
        · simp [hbc, hcb] at h₂
        · have h1 : ¬ a.toNat < c.toNat := by omega
          have h2 : ¬ c.toNat < a.toNat := by omega
          simp [hab, hba] at h₁
          simp [hbc, hcb] at h₂
          simpa [h1, h2] using lexLe_trans as bs cs h₁ h₂

theorem lexLe_antisymm : ∀ as bs : List Char,
    lexLe as bs = true → lexLe bs as = true → as = bs
  | [], [] => fun _ _ => rfl
  | [], _ :: _ => fun _ h => by simp [lexLe] at h
  | _ :: _, [] => fun h _ => by simp [lexLe] at h
  | a :: as, b :: bs => fun h₁ h₂ => by
    simp only [lexLe] at h₁ h₂
    by_cases hab : a.toNat < b.toNat
    · simp [show ¬ b.toNat < a.toNat by omega, show b.toNat ≠ a.toNat by omega, hab] at h₂
    · by_cases hba : b.toNat < a.toNat
      · simp [hab, hba] at h₁
      · have heq : a.toNat = b.toNat := by omega
        have hc : a = b := Char.ext (UInt32.ext heq)
        simp [hab, hba] at h₁ h₂
        rw [hc, lexLe_antisymm as bs h₁ h₂]

instance : IsTotal String (fun a b => strLe a b = true) :=
  ⟨fun a b => lexLe_total a.toList b.toList⟩

instance : IsTrans String (fun a b => strLe a b = true) :=
  ⟨fun a b c => lexLe_trans a.toList b.toList c.toList⟩

instance : IsAntisymm String (fun a b => strLe a b = true) :=
  ⟨fun a b h₁ h₂ => by
    have h := lexLe_antisymm a.toList b.toList h₁ h₂
    cases a; cases b; exact congrArg String.mk h⟩

theorem sortStrings_eq_of_perm {l₁ l₂ : List String} (h : l₁.Perm l₂) :
    sortStrings l₁ = sortStrings l₂ :=
  List.eq_of_perm_of_sorted
    (((List.perm_insertionSort _ l₁).trans h).trans (List.perm_insertionSort _ l₂).symm)
    (List.sorted_insertionSort _ l₁)
    (List.sorted_insertionSort _ l₂)

/-! ### Cache-key claims -/

/-- C3. The cache key is a pure deterministic function of
(diff, context, criteria, provider name, model name, strictness level) —
it is a mathematical function of exactly those inputs — and reordering the
criteria list leaves the key unchanged, because `_generate_cache_key` sorts
the criteria before hashing.  (Preimage equality entails SHA-256 digest
equality, so this holds of the real hex key.) -/
theorem cache_key_perm_invariant (cfg : AIConfig) (diff : String) (context : Option String)
    (c₁ c₂ : List String) (hperm : c₁.Perm c₂) :
    generate_cache_key cfg diff context c₁ = generate_cache_key cfg diff context c₂ := by
  unfold generate_cache_key
  rw [sortStrings_eq_of_perm hperm]

/-- Witness for C3 at a concrete permutation of criteria. -/
theorem cache_key_perm_invariant_witness :
    List.Perm ["security", "complexity"] ["complexity", "security"] ∧
      generate_cache_key ⟨some "openai", some ⟨"gpt-4", "k", none⟩, none, some "high"⟩
          "d" none ["security", "complexity"] =
        generate_cache_key ⟨some "openai", some ⟨"gpt-4", "k", none⟩, none, some "high"⟩
          "d" none ["complexity", "security"] :=
  ⟨by decide,
   cache_key_perm_invariant ⟨some "openai", some ⟨"gpt-4", "k", none⟩, none, some "high"⟩
     "d" none ["security", "complexity"] ["complexity", "security"] (by decide)⟩

/-- C4 (code evaluated at the failing input).  With the active provider
`"local_llm"`, two configurations that differ only in the configured model
name (in the `openai` section, which is the section `get_ai_provider` uses
for `local_llm`) produce the SAME cache key for every request:
`_generate_cache_key` looks the model up under the key `"local_llm"`, which
is not a key of the `ai` configuration dictionary, so it hashes `''`
instead of the model name.  Equal hash preimages give equal SHA-256
digests, so the real keys coincide, contradicting the claim that they MUST
differ. -/
theorem local_llm_model_not_in_key (diff : String) (context : Option String)
    (criteria : List String) (m₁ m₂ ak : String) (bu : Option String)
    (sl : Option String) :
    generate_cache_key ⟨some "local_llm", some ⟨m₁, ak, bu⟩, none, sl⟩ diff context criteria =
      generate_cache_key ⟨some "local_llm", some ⟨m₂, ak, bu⟩, none, sl⟩ diff context criteria := by
  rfl

/-- C10. The cache key depends on diff and context only through their
unseparated concatenation: the hasher consumes `(diff or '')` immediately
followed by `(context or '')`, so moving a suffix of the diff into the
context leaves the byte stream — hence the digest — unchanged, and an
absent (`None`) context hashes identically to an empty-string context. -/
theorem cache_key_concat_ambiguity (cfg : AIConfig) (d₁ d₂ : String) (criteria : List String) :
    generate_cache_key cfg (d₁ ++ d₂) (some "") criteria =
      generate_cache_key cfg d₁ (some d₂) criteria ∧
    ∀ d : String, generate_cache_key cfg d none criteria =
      generate_cache_key cfg d (some "") criteria := by
  constructor
  · unfold generate_cache_key
    simp [String.append_empty, String.append_assoc]
  · intro d
    rfl

/-! ### `AIAnalyzer.analyze` (src/ai_analyzer.py lines 224-264) -/

/-- The wrapped `AIProvider.analyze_code` call: a function of
(diff, context, criteria). -/
abbrev ProviderFun := String → Option String → List String → AnalysisResult

/-- The state of an `AIAnalyzer` relevant to `analyze`: the stored
`ai_config` and the `cache.enabled` flag (the cache directory itself is the
explicit `Store` argument below). -/
structure AIAnalyzer where
  ai_config : AIConfig
  cache_enabled : Bool

/-- The observable outcome of one `analyze` call: the returned result, the
cache store afterwards, how many times the provider was invoked, and
whether a cache key was computed / the store was read / the store was
written during the call. -/
structure AnalyzeOutcome where
  result : AnalysisResult
  store : Store
  providerCalls : Nat
  keyComputed : Bool
  storeRead : Bool
  storeWritten : Bool
deriving Repr, DecidableEq

/-- The miss path of `analyze` with caching enabled (lines 249-264): call
the provider, then store the result iff `"error" not in result` (a
`cache_file` is always set when caching is enabled, and an `IOError` while
writing is only logged — the write itself is modelled as succeeding). -/
def cacheMissCall (cache_key : String) (provider : ProviderFun) (diff : String)
    (context : Option String) (criteria : List String) (store : Store) : AnalyzeOutcome :=
  let result := provider diff context criteria
  if result.hasError then
    ⟨result, store, 1, true, true, false⟩
  else
    ⟨result, (cache_key, CacheEntry.valid result) :: store, 1, true, true, true⟩

/-- `AIAnalyzer.analyze` (lines 224-264).  With caching enabled the key is
computed and the store consulted: a present, deserializable entry is
returned with the provider not called; a corrupted/unreadable entry is
logged and treated as a miss; otherwise the provider is called and a
Success result is persisted.  With caching disabled the provider result is
returned unmodified and neither key nor store is touched. -/
def AIAnalyzer.analyze (an : AIAnalyzer) (provider : ProviderFun) (diff : String)
    (context : Option String) (criteria : List String) (store : Store) : AnalyzeOutcome :=
  if an.cache_enabled then
    let cache_key := generate_cache_key an.ai_config diff context criteria
    match storeFind store cache_key with
    | some (CacheEntry.valid cached) => ⟨cached, store, 0, true, true, false⟩
    | some CacheEntry.corrupt => cacheMissCall cache_key provider diff context criteria store
    | none => cacheMissCall cache_key provider diff context criteria store
  else
    ⟨provider diff context criteria, store, 1, false, false, false⟩

/-- Helper: with caching enabled, only Success results are ever written to
the store. -/
theorem analyze_storeWritten_imp_success (an : AIAnalyzer) (provider : ProviderFun)
    (diff : String) (context : Option String) (criteria : List String) (store : Store)
    (hw : (an.analyze provider diff context criteria store).storeWritten = true) :
    ((an.analyze provider diff context criteria store).result).hasError = false := by
  unfold AIAnalyzer.analyze at *
  by_cases he : an.cache_enabled = true
  · simp only [he, if_true] at *
    cases hfind : storeFind store (generate_cache_key an.ai_config diff context criteria) with
    | none =>
      simp only [hfind] at *
      unfold cacheMissCall at *
      by_cases herr : (provider diff context criteria).hasError = true
      · simp [herr] at hw
      · simp only [Bool.not_eq_true] at herr
        simp [herr]
    | some e =>
      cases e with
      | valid r => simp [hfind] at hw
      | corrupt =>
        simp only [hfind] at *
        unfold cacheMissCall at *
        by_cases herr : (provider diff context criteria).hasError = true
        · simp [herr] at hw
        · simp only [Bool.not_eq_true] at herr
          simp [herr]
  · simp only [Bool.not_eq_true] at he
    simp [he] at hw

/-- C1. Caching enabled, store initially empty, provider returning a
Success result: the first `analyze` call is a miss that invokes the
provider exactly once and returns its result; a second call with identical
arguments is a hit that invokes the provider zero further times; the two
calls return equal results. -/
theorem cache_idempotence (an : AIAnalyzer) (provider : ProviderFun) (diff : String)
    (context : Option String) (criteria : List String)
    (henabled : an.cache_enabled = true)
    (hok : (provider diff context criteria).hasError = false) :
    (an.analyze provider diff context criteria []).providerCalls = 1 ∧
    (an.analyze provider diff context criteria []).result = provider diff context criteria ∧
    (an.analyze provider diff context criteria
        (an.analyze provider diff context criteria []).store).providerCalls = 0 ∧
    (an.analyze provider diff context criteria
        (an.analyze provider diff context criteria []).store).result =
      (an.analyze provider diff context criteria []).result := by
  unfold AIAnalyzer.analyze
  simp only [henabled, if_true]
  unfold storeFind
  unfold cacheMissCall
  simp [hok, storeFind]

/-- Witness for C1: a concrete enabled analyzer, an empty store and a
concrete Success-returning provider. -/
theorem cache_idempotence_witness :
    ((AIAnalyzer.mk ⟨some "openai", some ⟨"gpt-4", "k", none⟩, none, some "high"⟩
        true).cache_enabled = true) ∧
    ((fun _ _ _ => AnalysisResult.success "openai" "gpt-4" "fine" : ProviderFun)
        "d" none ["security"]).hasError = false ∧
    ((AIAnalyzer.mk ⟨some "openai", some ⟨"gpt-4", "k", none⟩, none, some "high"⟩ true).analyze
        (fun _ _ _ => AnalysisResult.success "openai" "gpt-4" "fine") "d" none ["security"]
        []).providerCalls = 1 ∧
    ((AIAnalyzer.mk ⟨some "openai", some ⟨"gpt-4", "k", none⟩, none, some "high"⟩ true).analyze
        (fun _ _ _ => AnalysisResult.success "openai" "gpt-4" "fine") "d" none ["security"]
        (((AIAnalyzer.mk ⟨some "openai", some ⟨"gpt-4", "k", none⟩, none, some "high"⟩
          true).analyze
          (fun _ _ _ => AnalysisResult.success "openai" "gpt-4" "fine") "d" none ["security"]
          []).store)).providerCalls = 0 :=
  ⟨rfl, rfl,
   (cache_idempotence _ (fun _ _ _ => AnalysisResult.success "openai" "gpt-4" "fine")
      "d" none ["security"] rfl rfl).1,
   (cache_idempotence _ (fun _ _ _ => AnalysisResult.success "openai" "gpt-4" "fine")
      "d" none ["security"] rfl rfl).2.2.1⟩

/-- C2. If the provider returns a Failure result on a cache miss, `analyze`
returns it, writes nothing to the store (the store is unchanged), and a
subsequent call with identical inputs invokes the provider again; moreover,
in general a store write only ever happens for a Success result. -/
theorem failure_not_cached (an : AIAnalyzer) (provider : ProviderFun) (diff : String)
    (context : Option String) (criteria : List String) (store : Store)
    (henabled : an.cache_enabled = true)
    (hfail : (provider diff context criteria).hasError = true)
    (hmiss : storeFind store (generate_cache_key an.ai_config diff context criteria) = none) :
    (an.analyze provider diff context criteria store).result = provider diff context criteria ∧
    (an.analyze provider diff context criteria store).store = store ∧
    (an.analyze provider diff context criteria store).storeWritten = false ∧
    (an.analyze provider diff context criteria
        (an.analyze provider diff context criteria store).store).providerCalls = 1 ∧
    ∀ (an' : AIAnalyzer) (p' : ProviderFun) (d' : String) (c' : Option String)
      (cr' : List String) (s' : Store),
      (an'.analyze p' d' c' cr' s').storeWritten = true →
        ((an'.analyze p' d' c' cr' s').result).hasError = false := by
  refine ⟨?_, ?_, ?_, ?_, fun an' p' d' c' cr' s' hw =>
    analyze_storeWritten_imp_success an' p' d' c' cr' s' hw⟩ <;>
    · unfold AIAnalyzer.analyze
      simp only [henabled, if_true, hmiss]
      unfold cacheMissCall
      simp [hfail, hmiss]

/-- Witness for C2: a concrete enabled analyzer, empty store, and a
Failure-returning provider. -/
theorem failure_not_cached_witness :
    ((AIAnalyzer.mk ⟨some "openai", some ⟨"gpt-4", "k", none⟩, none, some "high"⟩
        true).cache_enabled = true) ∧
    ((fun _ _ _ => AnalysisResult.failure "openai" "boom" : ProviderFun)
        "d" none ["security"]).hasError = true ∧
    storeFind []
      (generate_cache_key ⟨some "openai", some ⟨"gpt-4", "k", none⟩, none, some "high"⟩
        "d" none ["security"]) = none ∧
    ((AIAnalyzer.mk ⟨some "openai", some ⟨"gpt-4", "k", none⟩, none, some "high"⟩ true).analyze
        (fun _ _ _ => AnalysisResult.failure "openai" "boom") "d" none ["security"]
        []).store = [] ∧
    ((AIAnalyzer.mk ⟨some "openai", some ⟨"gpt-4", "k", none⟩, none, some "high"⟩ true).analyze
        (fun _ _ _ => AnalysisResult.failure "openai" "boom") "d" none ["security"]
        (((AIAnalyzer.mk ⟨some "openai", some ⟨"gpt-4", "k", none⟩, none, some "high"⟩
          true).analyze
          (fun _ _ _ => AnalysisResult.failure "openai" "boom") "d" none ["security"]
          []).store)).providerCalls = 1 :=
  ⟨rfl, rfl, rfl,
   (failure_not_cached _ (fun _ _ _ => AnalysisResult.failure "openai" "boom")
      "d" none ["security"] [] rfl rfl rfl).2.1,
   (failure_not_cached _ (fun _ _ _ => AnalysisResult.failure "openai" "boom")
      "d" none ["security"] [] rfl rfl rfl).2.2.2.1⟩

/-- C5. With caching disabled, `analyze` delegates directly to the provider
and returns its result unmodified; no cache key is computed and the store
is neither read nor written, for every input. -/
theorem cache_disabled_bypass (an : AIAnalyzer) (provider : ProviderFun) (diff : String)
    (context : Option String) (criteria : List String) (store : Store)
    (hdisabled : an.cache_enabled = false) :
    an.analyze provider diff context criteria store =
      ⟨provider diff context criteria, store, 1, false, false, false⟩ := by
  unfold AIAnalyzer.analyze
  simp [hdisabled]

/-- Witness for C5 at a concrete disabled analyzer. -/
theorem cache_disabled_bypass_witness :
    ((AIAnalyzer.mk ⟨some "openai", some ⟨"gpt-4", "k", none⟩, none, some "high"⟩
        false).cache_enabled = false) ∧
    ((AIAnalyzer.mk ⟨some "openai", some ⟨"gpt-4", "k", none⟩, none, some "high"⟩ false).analyze
        (fun _ _ _ => AnalysisResult.success "openai" "gpt-4" "fine") "d" none ["security"]
        [] =
      ⟨AnalysisResult.success "openai" "gpt-4" "fine", [], 1, false, false, false⟩) :=
  ⟨rfl,
   cache_disabled_bypass _ (fun _ _ _ => AnalysisResult.success "openai" "gpt-4" "fine")
     "d" none ["security"] [] rfl⟩

/-- C6. With caching enabled: if the store holds an entry for the key that
deserializes, the stored result is returned and the provider is not
called; if the entry is corrupted or unreadable, the request is treated as
a miss — the provider is called and its result returned — rather than the
request failing. -/
theorem cache_hit_and_corrupt_behavior (an : AIAnalyzer) (provider : ProviderFun)
    (diff : String) (context : Option String) (criteria : List String) (store : Store)
    (henabled : an.cache_enabled = true) :
    (∀ r : AnalysisResult,
      storeFind store (generate_cache_key an.ai_config diff context criteria) =
          some (CacheEntry.valid r) →
        (an.analyze provider diff context criteria store).result = r ∧
        (an.analyze provider diff context criteria store).providerCalls = 0) ∧
    (storeFind store (generate_cache_key an.ai_config diff context criteria) =
        some CacheEntry.corrupt →
      (an.analyze provider diff context criteria store).providerCalls = 1 ∧
      (an.analyze provider diff context criteria store).result =
        provider diff context criteria) := by
  constructor
  · intro r hfind
    unfold AIAnalyzer.analyze
    simp [henabled, hfind]
  · intro hfind
    unfold AIAnalyzer.analyze
    simp only [henabled, if_true, hfind]
    unfold cacheMissCall
    by_cases herr : (provider diff context criteria).hasError = true <;> simp [herr]

/-- Witness for C6: a concrete store holding one valid and one corrupted
entry under their respective keys. -/
theorem cache_hit_and_corrupt_behavior_witness :
    ((AIAnalyzer.mk ⟨some "openai", some ⟨"gpt-4", "k", none⟩, none, some "high"⟩
        true).cache_enabled = true) ∧
    ((AIAnalyzer.mk ⟨some "openai", some ⟨"gpt-4", "k", none⟩, none, some "high"⟩ true).analyze
        (fun _ _ _ => AnalysisResult.success "openai" "gpt-4" "fresh") "d1" none []
        [(generate_cache_key ⟨some "openai", some ⟨"gpt-4", "k", none⟩, none, some "high"⟩
            "d1" none [], CacheEntry.valid (AnalysisResult.success "openai" "gpt-4" "old")),
         (generate_cache_key ⟨some "openai", some ⟨"gpt-4", "k", none⟩, none, some "high"⟩
            "d2" none [], CacheEntry.corrupt)]).providerCalls = 0 ∧
    ((AIAnalyzer.mk ⟨some "openai", some ⟨"gpt-4", "k", none⟩, none, some "high"⟩ true).analyze
        (fun _ _ _ => AnalysisResult.success "openai" "gpt-4" "fresh") "d2" none []
        [(generate_cache_key ⟨some "openai", some ⟨"gpt-4", "k", none⟩, none, some "high"⟩
            "d1" none [], CacheEntry.valid (AnalysisResult.success "openai" "gpt-4" "old")),
         (generate_cache_key ⟨some "openai", some ⟨"gpt-4", "k", none⟩, none, some "high"⟩
            "d2" none [], CacheEntry.corrupt)]).result =
      AnalysisResult.success "openai" "gpt-4" "fresh" :=
  ⟨rfl,
   ((cache_hit_and_corrupt_behavior _
      (fun _ _ _ => AnalysisResult.success "openai" "gpt-4" "fresh") "d1" none [] _ rfl).1
      (AnalysisResult.success "openai" "gpt-4" "old") (by decide)).2,
   ((cache_hit_and_corrupt_behavior _
      (fun _ _ _ => AnalysisResult.success "openai" "gpt-4" "fresh") "d2" none [] _ rfl).2
      (by decide)).2⟩

/-! ### Provider adapters (src/ai_analyzer.py lines 54-82 and 115-150) -/

/-- Mirrors `', '.join(criteria)`. -/
def joinCriteria (criteria : List String) : String := String.intercalate ", " criteria

/-- Mirrors the f-string fragment `{context or "Not available"}`: `None`
and the empty string (both falsy) render as `"Not available"`. -/
def contextOrNotAvailable (context : Option String) : String :=
  match context with
  | none => "Not available"
  | some s => if s = "" then "Not available" else s

/-- The prompt built by `GeminiProvider.analyze_code` (lines 56-71). -/
def buildGeminiPrompt (diff : String) (context : Option String) (criteria : List String) :
    String :=
  "Analyze the following code changes based on these criteria: " ++ joinCriteria criteria
    ++ ".\nProvide feedback on potential issues like bugs, style inconsistencies, security vulnerabilities, complexity, and maintainability.\nFocus particularly on: "
    ++ joinCriteria criteria
    ++ ".\n\nContext (Original Code Snippet, if available):\n---\n"
    ++ contextOrNotAvailable context
    ++ "\n---\n\nCode Changes (Diff):\n---\n" ++ diff ++ "\n---\n\nAnalysis:\n"

/-- `GeminiProvider.analyze_code` (lines 54-82).  `generate_content` is the
opaque remote call `self.model.generate_content(prompt)` followed by
`response.text`, both of which sit inside the `try` block; `Except.error e`
models the call raising an exception whose `str` is `e`.  The adapter's own
ambient effect is `Except` (a Python method may raise); the `try/except
Exception` around the call maps a raise to the Failure dictionary
`{"provider": "gemini", "error": str(e)}`. -/
def geminiAnalyzeCode (model_name : String) (generate_content : String → Except String String)
    (diff : String) (context : Option String) (criteria : List String) :
    Except String AnalysisResult :=
  match generate_content (buildGeminiPrompt diff context criteria) with
  | Except.ok text => Except.ok (AnalysisResult.success "gemini" model_name text)
  | Except.error e => Except.ok (AnalysisResult.failure "gemini" e)

/-- The system prompt built by `OpenAICompatibleProvider.analyze_code`
(lines 117-119). -/
def buildOpenAISystemPrompt (criteria : List String) : String :=
  "You are a strict code reviewer. Analyze the following code changes based on these criteria: "
    ++ joinCriteria criteria
    ++ ".\nProvide detailed feedback on potential issues like bugs, style inconsistencies, security vulnerabilities, complexity, and maintainability.\nFocus particularly on: "
    ++ joinCriteria criteria ++ ". Respond in a structured format (e.g., JSON or Markdown sections)."

/-- The user prompt built by `OpenAICompatibleProvider.analyze_code`
(lines 121-131). -/
def buildOpenAIUserPrompt (diff : String) (context : Option String) : String :=
  "Context (Original Code Snippet, if available):\n---\n"
    ++ contextOrNotAvailable context
    ++ "\n---\n\nCode Changes (Diff):\n---\n" ++ diff ++ "\n---\n\nPlease provide your analysis."

/-- `OpenAICompatibleProvider.analyze_code` (lines 115-150).
`chat_completion` is the opaque remote call
`self.client.chat.completions.create(...)` together with the extraction
`response.choices[0].message.content`, all of which sit inside the `try`
block (an `IndexError` on an empty `choices` list is likewise caught);
`Except.error e` models a raise with message `e`. -/
def openaiAnalyzeCode (model_name : String)
    (chat_completion : String → String → Except String String)
    (diff : String) (context : Option String) (criteria : List String) :
    Except String AnalysisResult :=
  match chat_completion (buildOpenAISystemPrompt criteria) (buildOpenAIUserPrompt diff context) with
  | Except.ok content => Except.ok (AnalysisResult.success "openai" model_name content)
  | Except.error e => Except.ok (AnalysisResult.failure "openai" e)

/-- C7. For every input and every behavior of the remote provider call,
each adapter's `analyze_code` returns a value (never propagates an
exception past its own boundary), and whenever the remote call raises with
message `e` the returned value is the Failure result carrying that
human-readable message. -/
theorem adapters_never_raise (gemini_model openai_model : String) (diff : String)
    (context : Option String) (criteria : List String) :
    (∀ generate_content : String → Except String String,
      (geminiAnalyzeCode gemini_model generate_content diff context criteria).isOk = true) ∧
    (∀ e : String,
      geminiAnalyzeCode gemini_model (fun _ => Except.error e) diff context criteria =
        Except.ok (AnalysisResult.failure "gemini" e)) ∧
    (∀ chat_completion : String → String → Except String String,
      (openaiAnalyzeCode openai_model chat_completion diff context criteria).isOk = true) ∧
    (∀ e : String,
      openaiAnalyzeCode openai_model (fun _ _ => Except.error e) diff context criteria =
        Except.ok (AnalysisResult.failure "openai" e)) := by
  refine ⟨fun g => ?_, fun e => rfl, fun o => ?_, fun e => rfl⟩
  · unfold geminiAnalyzeCode
    cases g (buildGeminiPrompt diff context criteria) <;> rfl
  · unfold openaiAnalyzeCode
    cases o (buildOpenAISystemPrompt criteria) (buildOpenAIUserPrompt diff context) <;> rfl

/-! ### Diff filename parsing (src/comparison_engine.py lines 40-68) -/

/-- Mirrors `str.split('\n')` on the character list. -/
def splitOnNewline : List Char → List (List Char)
  | [] => [[]]
  | c :: rest =>
    match splitOnNewline rest with
    | [] => [[]]
    | line :: lines => if c = '\n' then [] :: line :: lines else (c :: line) :: lines

/-- Python `str.strip()` whitespace test (ASCII whitespace; the inputs in
question contain no further Unicode space characters). -/
def isPyWhitespace (c : Char) : Bool :=
  c = ' ' || c = '\t' || c = '\n' || c = '\r' || c = '\x0b' || c = '\x0c'

/-- Mirrors `str.strip()`. -/
def stripChars (cs : List Char) : List Char :=
  ((cs.dropWhile isPyWhitespace).reverse.dropWhile isPyWhitespace).reverse

/-- The capture group of `(?:--- a/|\+\+\+ b/)(.+?)(?:\t.*)?$` applied to
the remainder of the line after the six-character header prefix: the lazy
`(.+?)` with the optional `(?:\t.*)?$` tail captures the shortest nonempty
prefix whose remainder is empty or starts at a tab — i.e. the first
character followed by everything up to (excluding) the next tab. -/
def captureGroup : List Char → List Char
  | [] => []
  | c :: cs => c :: cs.takeWhile (fun ch => ch != '\t')

/-- One line of the `finditer` loop of `_parse_diff_filenames`: the
`re.MULTILINE`-anchored alternation `^(?:--- a/|\+\+\+ b/)` matches lines
starting with either six-character header prefix, the capture group must be
nonempty, and the match is followed by `match.group(1).strip()`. -/
def matchHeaderLine (line : List Char) : Option (List Char) :=
  let rest :=
    if "--- a/".toList.isPrefixOf line then some (line.drop 6)
    else if "+++ b/".toList.isPrefixOf line then some (line.drop 6)
    else none
  match rest with
  | none => none
  | some [] => none
  | some r => some (stripChars (captureGroup r))

/-- `ComparisonEngine._parse_diff_filenames` (lines 40-68): scan every line
for the two header prefixes, strip the captured path, skip a captured path
equal to the literal `/dev/null`, accumulate into a set, and return the
sorted list. -/
def parse_diff_filenames (diff_content : String) : List String :=
  let filenames := (splitOnNewline diff_content.toList).foldl
    (fun acc line =>
      match matchHeaderLine line with
      | some f =>
        let filename := String.mk f
        if filename = "/dev/null" ∨ filename ∈ acc then acc else acc ++ [filename]
      | none => acc) []
  sortStrings filenames

/-- C8 counterexample.  On the diff whose header lines are
`--- a/src/x.py`, `+++ b/src/x.py`, `--- a/dev/null`, `+++ b/new.py`,
the extraction does NOT return the two-element set claimed: the regex
strips the `a/` prefix from `--- a/dev/null`, capturing `dev/null`, which
is not equal to the sentinel string `/dev/null` and is therefore kept. -/
theorem parse_diff_dev_null_cex :
    parse_diff_filenames
        "--- a/src/x.py\n+++ b/src/x.py\n--- a/dev/null\n+++ b/new.py\n" ≠
      ["new.py", "src/x.py"] := by
  decide

/-- C8 amended.  On that diff the extraction returns exactly the sorted,
deduplicated list `[dev/null, new.py, src/x.py]`: the `/dev/null` sentinel
is excluded only when the captured path is exactly `/dev/null` (as in the
real git new-file header `--- /dev/null`, which matches neither prefix),
while `--- a/dev/null` contributes the path `dev/null`. -/
theorem parse_diff_dev_null_amended :
    parse_diff_filenames
        "--- a/src/x.py\n+++ b/src/x.py\n--- a/dev/null\n+++ b/new.py\n" =
      ["dev/null", "new.py", "src/x.py"] := by
  decide

/-! ### Test-coverage criterion resolution (src/comparison_engine.py lines 70-100, 141-145) -/

/-- The `LocalProjectReader` collaborator as consumed by
`ComparisonEngine._check_test_coverage_needed`: directory existence, glob
search and file reading over the local project checkout
(`src/local_project_reader.py`; `read_file` returns `None` when the file
is missing, unreadable or escapes the project root). -/
structure LocalReader where
  directory_exists : String → Bool
  find_files : String → List String
  read_file : String → Option String

/-- The `project` configuration section as read by the engine:
`test_indicators` and `test_dependency_markers` are optional, defaulting in
the code via `dict.get`. -/
structure EngineProjectConfig where
  test_indicators : Option (List String)
  test_dependency_markers : Option (List String)

/-- Python substring test `needle in haystack`. -/
def pyIn (needle haystack : String) : Bool :=
  decide (needle.toList <:+: haystack.toList)

/-- The body of `_check_test_coverage_needed` after its focus-area guard
(lines 78-100): a known test directory exists, or some
`**/requirements*.txt` / `**/pyproject.toml` file has nonempty content
containing a known test-framework marker (checked against the lowercased
content). -/
def testSignalPresent (project : EngineProjectConfig) (reader : LocalReader) : Bool :=
  let test_indicators := project.test_indicators.getD ["tests/", "test/"]
  if test_indicators.any reader.directory_exists then true
  else
    let test_deps := project.test_dependency_markers.getD ["pytest", "unittest"]
    let req_files := reader.find_files "**/requirements*.txt"
      ++ reader.find_files "**/pyproject.toml"
    req_files.any (fun req_file_path =>
      match reader.read_file req_file_path with
      | some content =>
        if content = "" then false
        else test_deps.any (fun dep => pyIn dep content.toLower)
      | none => false)

/-- `ComparisonEngine._check_test_coverage_needed` (lines 70-100): `False`
when `"test_coverage"` is not among the configured focus areas, else the
project-signal check. -/
def check_test_coverage_needed (focus_areas : List String) (project : EngineProjectConfig)
    (reader : LocalReader) : Bool :=
  if "test_coverage" ∈ focus_areas then testSignalPresent project reader else false

/-- Step 3 of `ComparisonEngine.analyze_pull_request` (lines 141-145):
copy the focus areas and, when test analysis is not applicable,
`list.remove` the `"test_coverage"` entry (removing the first occurrence). -/
def resolve_criteria (focus_areas : List String) (project : EngineProjectConfig)
    (reader : LocalReader) : List String :=
  let include_test_analysis := check_test_coverage_needed focus_areas project reader
  if include_test_analysis = false ∧ "test_coverage" ∈ focus_areas then
    focus_areas.erase "test_coverage"
  else focus_areas

/-- C9 counterexample.  With focus areas listing `"test_coverage"` twice
and a project with no test directory and no manifest marker, the resolved
criteria list still includes `"test_coverage"` (Python `list.remove` drops
only the first occurrence), although the claimed condition is false. -/
theorem test_coverage_duplicate_cex :
    "test_coverage" ∈ resolve_criteria ["test_coverage", "test_coverage"]
        ⟨none, none⟩ ⟨fun _ => false, fun _ => [], fun _ => none⟩ ∧
    testSignalPresent ⟨none, none⟩ ⟨fun _ => false, fun _ => [], fun _ => none⟩ = false := by
  constructor
  · show "test_coverage" ∈ ["test_coverage"]
    decide
  · rfl

/-- C9 amended.  Provided `"test_coverage"` occurs at most once among the
configured focus areas (in general only the first occurrence is removed),
the resolved criteria list includes `"test_coverage"` iff it is among the
focus areas AND a known test-directory name exists in the local checkout or
a dependency manifest file contains a known test-framework marker. -/
theorem test_coverage_inclusion_iff (focus_areas : List String)
    (project : EngineProjectConfig) (reader : LocalReader)
    (hcount : focus_areas.count "test_coverage" ≤ 1) :
    "test_coverage" ∈ resolve_criteria focus_areas project reader ↔
      ("test_coverage" ∈ focus_areas ∧ testSignalPresent project reader = true) := by
  unfold resolve_criteria check_test_coverage_needed
  by_cases hmem : "test_coverage" ∈ focus_areas
  · by_cases hsig : testSignalPresent project reader = true
    · simp [hmem, hsig]
    · have hsig' : testSignalPresent project reader = false := by
        cases h : testSignalPresent project reader
        · rfl
        · exact absurd h hsig
      simp only [hmem, hsig', if_pos, and_true, true_and, iff_false, and_self,
        Bool.false_eq_true, and_false, if_true]
      intro hin
      have h1 : 0 < (focus_areas.erase "test_coverage").count "test_coverage" :=
        List.count_pos_iff.mpr hin
      rw [List.count_erase_self] at h1
      have h2 : 0 < focus_areas.count "test_coverage" := List.count_pos_iff.mpr hmem
      omega
  · simp [hmem]

/-- Witness for C9 (amended) at a concrete project with a `tests/`
directory. -/
theorem test_coverage_inclusion_iff_witness :
    (["test_coverage", "security"].count "test_coverage" ≤ 1) ∧
    ("test_coverage" ∈ resolve_criteria ["test_coverage", "security"]
        ⟨none, none⟩ ⟨fun d => d = "tests/", fun _ => [], fun _ => none⟩ ↔
      ("test_coverage" ∈ ["test_coverage", "security"] ∧
        testSignalPresent ⟨none, none⟩
          ⟨fun d => d = "tests/", fun _ => [], fun _ => none⟩ = true)) :=
  ⟨by decide,
   test_coverage_inclusion_iff ["test_coverage", "security"] ⟨none, none⟩
     ⟨fun d => d = "tests/", fun _ => [], fun _ => none⟩ (by decide)⟩
